import Mathlib

/-!
Verification of the Class-sensi classroom-monitoring core against its
natural-language specification.

The definitions below are a shallow embedding of the TypeScript source:
  * `src/server/storage.ts`  — `MemStorage` (classes and attendance records),
    the `/api/attendance/update-from-detection` handler and the
    `/api/attendance/finalize` handler;
  * `src/client/src/lib/face-detection.ts` — `matchFacesToStudents`,
    `findNearestDetectedFace`, `calculateFaceScore`, `detectMobilePhone`,
    `detectTalking`;
  * `src/client/src/pages/dashboard.tsx` — `endClassMutation` and
    `handleBehaviorDetected`.

Modelling conventions:
  * JS numbers are embedded as `ℚ` (exact rationals); integer counters as `ℕ`.
  * Nullable fields (`T | null`) are embedded as `Option`.
  * The JS `a || b` idiom on numbers (falsy on `0`/`null`) is embedded by
    `jsOrQ` below.
  * `Map<string, T>` state is embedded as a function `String → Option T`
    where only point reads/writes occur (classes), and as a `List` where the
    source enumerates the values (attendance records).
  * `randomUUID()` is embedded as a fresh-counter id supply.
-/

/-- Attendance status strings used by the server (`'present' | 'late' | 'absent'`). -/
inductive AttStatus where
  | present
  | late
  | absent
deriving DecidableEq, Repr

/-- A row of the `attendance_records` table as held by `MemStorage`
(`src/shared/schema.ts` lines 29-38): nullable `timePresent`,
`detectionCount`, `lastSeen`. Ids are modelled as `ℕ` (fresh UUIDs). -/
structure AttRecord where
  id : ℕ
  studentId : String
  classId : String
  status : AttStatus
  timePresent : Option ℚ
  detectionCount : Option ℕ
  lastSeen : Option ℚ
deriving DecidableEq, Repr

/-- A row of the `classes` table (`src/shared/schema.ts` lines 16-27). -/
structure ClassRec where
  name : String
  duration : ℚ
  attendanceThreshold : Option ℚ
  mobileDetectionEnabled : Option Bool
  talkingDetectionEnabled : Option Bool
  isActive : Option Bool
  startedAt : Option ℚ
  endedAt : Option ℚ
deriving DecidableEq, Repr

/-- The JS idiom `a || b` on a nullable number: `a` is used when it is
neither `null` nor `0` (both falsy), else `b`. -/
def jsOrQ (a : Option ℚ) (b : ℚ) : ℚ :=
  match a with
  | some v => if v = 0 then b else v
  | none => b

/-- `MemStorage.getAttendanceRecord(studentId, classId)`
(`src/server/storage.ts` lines 190-193): first record matching both keys. -/
def getAttendanceRecordL (recs : List AttRecord) (studentId classId : String) :
    Option AttRecord :=
  recs.find? (fun r => r.studentId = studentId ∧ r.classId = classId)

/-- `MemStorage.updateAttendanceRecord(id, { status })`
(`src/server/storage.ts` lines 209-216) as used by the finalize handler:
spread-merge that replaces only `status`. -/
def setStatusById (recs : List AttRecord) (id : ℕ) (newStatus : AttStatus) :
    List AttRecord :=
  recs.map fun r => if r.id = id then { r with status := newStatus } else r

/-- `MemStorage.updateAttendanceRecord(id, { timePresent, lastSeen })`
(`src/server/storage.ts` lines 209-216) as used by the
update-from-detection handler: spread-merge replacing `timePresent` and
`lastSeen` only. -/
def setDetectionById (recs : List AttRecord) (id : ℕ) (tp : Option ℚ)
    (ls : Option ℚ) : List AttRecord :=
  recs.map fun r =>
    if r.id = id then { r with timePresent := tp, lastSeen := ls } else r

/-- The effective threshold `classInfo.attendanceThreshold || 75`
(`src/server/storage.ts` line 621): a stored `null` or `0` falls back to 75. -/
def effectiveThreshold (t : Option ℚ) : ℚ := jsOrQ t 75

/-- The per-record status computation of the finalize handler
(`src/server/storage.ts` lines 616-625):
`timePresent = record.timePresent || 0`;
`attendancePercentage = timePresent / duration * 100`;
`'present'` if the percentage reaches the effective threshold, else `'late'`
if `timePresent > 0` and the percentage is at least 25, else `'absent'`. -/
def computeFinalStatus (c : ClassRec) (r : AttRecord) : AttStatus :=
  let timePresent := jsOrQ r.timePresent 0
  let attendancePercentage := timePresent / c.duration * 100
  if attendancePercentage ≥ effectiveThreshold c.attendanceThreshold then
    AttStatus.present
  else if timePresent > 0 ∧ attendancePercentage ≥ 25 then
    AttStatus.late
  else
    AttStatus.absent

/-- The `/api/attendance/finalize` handler body
(`src/server/storage.ts` lines 611-632): enumerate the class's records
(a snapshot), and write each one's final status back by id. -/
def finalizeClass (c : ClassRec) (classId : String) (recs : List AttRecord) :
    List AttRecord :=
  (recs.filter (fun r => r.classId = classId)).foldl
    (fun acc r => setStatusById acc r.id (computeFinalStatus c r)) recs

/-- The status rule exactly as the specification states it (claim C1):
the raw `attendanceThreshold` is compared against, with no `|| 75`
fallback for a stored `0`. -/
def specStatusC1 (threshold : ℚ) (duration : ℚ) (timePresent : ℚ) : AttStatus :=
  let percentage := timePresent / duration * 100
  if percentage ≥ threshold then AttStatus.present
  else if timePresent > 0 ∧ percentage ≥ 25 then AttStatus.late
  else AttStatus.absent

/-- Server state relevant to the detection-update handler: the attendance
record list plus a fresh-id counter standing in for `randomUUID()`. -/
structure AttState where
  nextId : ℕ
  recs : List AttRecord
deriving Repr

/-- The `/api/attendance/update-from-detection` handler
(`src/server/storage.ts` lines 560-594). Note the lookup on line 569 is
`storage.getAttendanceRecord(classId, studentId)` — the arguments are in
the opposite order to the method's `(studentId, classId)` signature, and
that call is embedded verbatim. `now` stands for `new Date()`. -/
def updateFromDetection (st : AttState) (classId studentId : String)
    (timePresent : Option ℚ) (lastSeen : Option ℚ) (now : ℚ) : AttState :=
  match getAttendanceRecordL st.recs classId studentId with
  | none =>
      -- create: status 'present', timePresent || 0, lastSeen or now;
      -- createAttendanceRecord leaves detectionCount null
      let newRecord : AttRecord :=
        { id := st.nextId
          studentId := studentId
          classId := classId
          status := AttStatus.present
          timePresent := some (jsOrQ timePresent 0)
          detectionCount := none
          lastSeen := some (lastSeen.getD now) }
      { nextId := st.nextId + 1, recs := st.recs ++ [newRecord] }
  | some attendanceRecord =>
      -- update: timePresent || existing.timePresent, lastSeen or now
      let newTp : Option ℚ :=
        match timePresent with
        | some v => if v = 0 then attendanceRecord.timePresent else some v
        | none => attendanceRecord.timePresent
      { nextId := st.nextId
        recs := setDetectionById st.recs attendanceRecord.id newTp
          (some (lastSeen.getD now)) }

/-! ### Class sessions (`MemStorage.startClass` / `MemStorage.endClass`) -/

/-- The `classes` map of `MemStorage`, embedded as a point-read/point-write
function from class id to row. -/
def ClassMap := String → Option ClassRec

/-- A class entry is "active" when `isActive` is truthy, i.e. literally
`true` (the field is `boolean | null`). -/
def classActive (c : ClassRec) : Prop := c.isActive = some true

instance (c : ClassRec) : Decidable (classActive c) := by
  unfold classActive
  infer_instance

/-- `MemStorage.startClass(id)` (`src/server/storage.ts` lines 150-169):
`undefined` when the class does not exist; otherwise every *other* active
class is ended (`isActive: false`, `endedAt: now`) and the target class —
from the pre-loop snapshot — becomes active with `startedAt: now`,
`endedAt: null`. -/
def startClass (classes : ClassMap) (id : String) (now : ℚ) :
    Option ClassMap :=
  match classes id with
  | none => none
  | some existing =>
      some (fun cId =>
        if cId = id then
          some { existing with isActive := some true, startedAt := some now,
                               endedAt := none }
        else
          match classes cId with
          | some c =>
              if classActive c then
                some { c with isActive := some false, endedAt := some now }
              else some c
          | none => none)

/-- `MemStorage.endClass(id)` (`src/server/storage.ts` lines 171-182). -/
def endClass (classes : ClassMap) (id : String) (now : ℚ) :
    Option ClassMap :=
  match classes id with
  | none => none
  | some existing =>
      some (fun cId =>
        if cId = id then
          some { existing with isActive := some false, endedAt := some now }
        else classes cId)

/-- At most one class entry is active. -/
def atMostOneActive (classes : ClassMap) : Prop :=
  ∀ i j ci cj, classes i = some ci → classes j = some cj →
    classActive ci → classActive cj → i = j

/-! ### Face detection (`src/client/src/lib/face-detection.ts`) -/

/-- An RGBA pixel's colour channels (the alpha channel is never read). -/
structure Px where
  r : ℕ
  g : ℕ
  b : ℕ
deriving DecidableEq, Repr

/-- `isSkinTone(r, g, b)` (`face-detection.ts` lines 343-352). -/
def isSkinTone (r g b : ℕ) : Bool :=
  r > 95 && g > 40 && b > 20 &&
  r > g && r > b &&
  ((r : ℤ) - g).natAbs > 15 &&
  max r (max g b) - min r (min g b) > 15

/-- The pixels visited by the clamped double loop of `calculateFaceScore`
(`face-detection.ts` lines 313-328): `y` from `startY` while
`y < startY + 60 && y < height`, `x` likewise with bound `width`. The frame
is a function from coordinates to pixel. -/
def regionPixels (frame : ℕ → ℕ → Px) (width height startX startY : ℕ) :
    List Px :=
  (List.range' startY (min (startY + 60) height - startY)).flatMap fun y =>
    (List.range' startX (min (startX + 60) width - startX)).map fun x =>
      frame x y

/-- The loop's `skinPixels` accumulator of `calculateFaceScore`
(`face-detection.ts` lines 308, 324-326): pixels satisfying `isSkinTone`. -/
def skinPixelCount (frame : ℕ → ℕ → Px) (width height startX startY : ℕ) : ℕ :=
  (regionPixels frame width height startX startY).countP
    (fun p => isSkinTone p.r p.g p.b)

/-- The loop's `skinRatio = skinPixels / totalPixels`
(`face-detection.ts` line 330). -/
def skinRatioOf (frame : ℕ → ℕ → Px) (width height startX startY : ℕ) : ℚ :=
  (skinPixelCount frame width height startX startY : ℚ) /
    ((regionPixels frame width height startX startY).length : ℚ)

/-- The loop's `avgBrightness = brightnessSum / totalPixels`, where each
pixel contributes `(r+g+b)/3` (`face-detection.ts` lines 321, 331). -/
def avgBrightnessOf (frame : ℕ → ℕ → Px) (width height startX startY : ℕ) : ℚ :=
  ((regionPixels frame width height startX startY).foldl
      (fun acc p => acc + ((p.r : ℚ) + p.g + p.b) / 3) 0) /
    ((regionPixels frame width height startX startY).length : ℚ)

/-- `calculateFaceScore` (`face-detection.ts` lines 307-341): 0.4 for a
skin ratio strictly inside (0.2, 0.8), +0.3 for mean brightness strictly
inside (60, 200), +0.3 for more than 200 skin pixels. The single source
loop is split into the three named statistics above over the same region.
Division by a zero `totalPixels` yields `0` in `ℚ`; in JS it yields `NaN`,
and both make every score condition false. -/
def calculateFaceScore (frame : ℕ → ℕ → Px) (width height startX startY : ℕ) :
    ℚ :=
  let skinRatio := skinRatioOf frame width height startX startY
  let avgBrightness := avgBrightnessOf frame width height startX startY
  let skinPixels := skinPixelCount frame width height startX startY
  (if skinRatio > 1/5 ∧ skinRatio < 4/5 then 2/5 else 0) +
  (if avgBrightness > 60 ∧ avgBrightness < 200 then 3/10 else 0) +
  (if skinPixels > 200 then 3/10 else 0)

/-- An entry of the `lastDetectedFaces` cache (`face-detection.ts` line
740): the face's stored `x`/`y` (its box's top-left) and identity. -/
structure CachedFace where
  x : ℚ
  y : ℚ
  studentId : String
  studentName : String
deriving DecidableEq, Repr

/-- Squared Euclidean distance. `findNearestDetectedFace` compares
`Math.sqrt`-distances; since `sqrt` is strictly monotone on nonnegative
reals, both its comparisons (`distance < minDistance`,
`distance < 200`) are embedded on squared distances (against `200² = 40000`). -/
def dist2 (ax ay bx bY : ℚ) : ℚ := (ax - bx) ^ 2 + (ay - bY) ^ 2

/-- `findNearestDetectedFace(x, y)` (`face-detection.ts` lines 742-756):
fold over the cache keeping the strictly closest face so far, accepting
only faces strictly within 200px; `minDistance` starts at `Infinity`,
embedded as `none`. -/
def findNearestDetectedFace (cache : List CachedFace) (x y : ℚ) :
    Option CachedFace :=
  (cache.foldl
    (fun (acc : Option CachedFace × Option ℚ) face =>
      let d := dist2 face.x face.y x y
      match acc.2 with
      | none => if d < 40000 then (some face, some d) else acc
      | some m => if d < m ∧ d < 40000 then (some face, some d) else acc)
    (none, none)).1

/-- A transient `BehaviorDetection` (`face-detection.ts` lines 13-19),
restricted to the fields the warning path reads. -/
structure BehaviorDet where
  btype : String
  confidence : ℚ
  studentId : Option String
  studentName : Option String
deriving DecidableEq, Repr

/-- The per-candidate emission step of `detectMobilePhone`
(`face-detection.ts` lines 422-435): a candidate window at `(x, y)` whose
score cleared the threshold is surfaced only when
`findNearestDetectedFace(x, y)` returns a face, and is then attributed to
that face. -/
def mobileBehaviorAt (cache : List CachedFace) (x y : ℚ) (score : ℚ) :
    Option BehaviorDet :=
  match findNearestDetectedFace cache x y with
  | some nearFace =>
      some { btype := "mobile",
             confidence := (Int.floor (score * 100) : ℚ),
             studentId := some nearFace.studentId,
             studentName := some nearFace.studentName }
  | none => none

/-- The per-candidate emission step of `detectTalking`
(`face-detection.ts` lines 575-588), identical gating. -/
def talkingBehaviorAt (cache : List CachedFace) (x y : ℚ) (score : ℚ) :
    Option BehaviorDet :=
  match findNearestDetectedFace cache x y with
  | some nearStudent =>
      some { btype := "talking",
             confidence := (Int.floor (score * 100) : ℚ),
             studentId := some nearStudent.studentId,
             studentName := some nearStudent.studentName }
  | none => none

/-- `detectMobilePhone` over its accepted candidate positions (the scan
positions whose `phoneScore` exceeded 0.8), with the `slice(0, 2)` cap
(`face-detection.ts` lines 413-440). -/
def detectMobilePhoneL (cache : List CachedFace) (cands : List (ℚ × ℚ × ℚ)) :
    List BehaviorDet :=
  (cands.filterMap (fun c => mobileBehaviorAt cache c.1 c.2.1 c.2.2)).take 2

/-- `detectTalking` over its accepted candidate positions, with the
`slice(0, 1)` cap (`face-detection.ts` lines 566-593). -/
def detectTalkingL (cache : List CachedFace) (cands : List (ℚ × ℚ × ℚ)) :
    List BehaviorDet :=
  (cands.filterMap (fun c => talkingBehaviorAt cache c.1 c.2.1 c.2.2)).take 1

/-- `detectBehaviors` (`face-detection.ts` lines 377-411): the mobile
detections followed by the talking detections. Neither detector receives
the class record, so no detection flag can influence the result. -/
def detectBehaviors (cache : List CachedFace)
    (mobileCands talkingCands : List (ℚ × ℚ × ℚ)) : List BehaviorDet :=
  detectMobilePhoneL cache mobileCands ++ detectTalkingL cache talkingCands

/-- The distance test claim C7 states: the *centre* of a mobile candidate
(box 40×80, so `(x+20, y+40)`) strictly within 200px of a cached face's
position. Stated from the spec's words, for comparison with the source's
top-left-based test. -/
def specMobileCenterNear (cache : List CachedFace) (x y : ℚ) : Prop :=
  ∃ f ∈ cache, dist2 f.x f.y (x + 20) (y + 40) < 40000

instance (cache : List CachedFace) (x y : ℚ) :
    Decidable (specMobileCenterNear cache x y) := by
  unfold specMobileCenterNear
  infer_instance

/-! ### Ordinal matching (`matchFacesToStudents`) -/

/-- A candidate face box from `analyzeImageForFaces`. -/
structure FaceBox where
  x : ℚ
  y : ℚ
  width : ℚ
  height : ℚ
deriving DecidableEq, Repr

/-- A matched `DetectedFace` (`face-detection.ts` lines 3-11). -/
structure MatchedFace where
  x : ℚ
  y : ℚ
  width : ℚ
  height : ℚ
  confidence : ℚ
  studentId : String
  studentName : String
deriving DecidableEq, Repr

/-- A value of the `recognizedStudents` map. -/
structure StudentProfile where
  name : String
deriving DecidableEq, Repr

/-- `Map.get` over the roster embedded as an association list. -/
def rosterGet (roster : List (String × StudentProfile)) (sid : String) :
    Option StudentProfile :=
  (roster.find? (fun e => e.1 = sid)).map (·.2)

/-- `matchFacesToStudents` (`face-detection.ts` lines 354-375): iterate the
detected faces with their index; when the index is below the roster size,
look the i-th student id up in the roster map and push the face paired with
that student. `conf i` stands for the `Math.floor(Math.random()*20)+75`
confidence drawn at index `i`. -/
def matchFacesToStudents (roster : List (String × StudentProfile))
    (conf : ℕ → ℚ) : ℕ → List FaceBox → List MatchedFace
  | _, [] => []
  | i, face :: rest =>
      let tail := matchFacesToStudents roster conf (i + 1) rest
      if h : i < roster.length then
        match rosterGet roster (roster.get ⟨i, h⟩).1 with
        | some student =>
            { x := face.x, y := face.y, width := face.width,
              height := face.height, confidence := conf i,
              studentId := (roster.get ⟨i, h⟩).1,
              studentName := student.name } :: tail
        | none => tail
      else tail

/-! ### Dashboard flow (`src/client/src/pages/dashboard.tsx`) -/

/-- The outcome of the `endClassMutation` function as seen by its caller. -/
inductive EndFlowResult where
  | success
  | failure
deriving DecidableEq, Repr

/-- `endClassMutation.mutationFn` (`dashboard.tsx` lines 88-107): a failed
finalize request only logs a warning and the flow continues; the flow
throws (fails) exactly when the subsequent end-class request fails. -/
def endClassFlow (finalizeOk : Bool) (endOk : Bool) : EndFlowResult :=
  -- if (!finalizeResponse.ok) console.warn(..., 'but continuing with class end')
  let _ := finalizeOk
  if endOk then EndFlowResult.success else EndFlowResult.failure

/-- A persisted `BehaviorWarning` as created by the dashboard. -/
structure WarningReq where
  studentId : String
  classId : String
  warningType : String
  description : String
deriving DecidableEq, Repr

/-- `handleBehaviorDetected` (`dashboard.tsx` lines 198-212): for each
behavior that carries a `studentId`, create a warning against the current
class; the class's detection flags are never read. `currentClassId` is the
only part of `currentClass` the handler uses. -/
def handleBehaviorDetected (currentClassId : String)
    (behaviors : List BehaviorDet) : List WarningReq :=
  behaviors.filterMap fun behavior =>
    match behavior.studentId with
    | some sid =>
        some { studentId := sid, classId := currentClassId,
               warningType := behavior.btype,
               description := behavior.btype ++ " detected with confidence" }
    | none => none

/-- The full warning path for one detection cycle, from the class record to
the created warnings: `detectBehaviors` (which never receives the flags)
composed with `handleBehaviorDetected` (which reads only the class id).
`classId` identifies the current class; `c` is its full record including
`mobileDetectionEnabled` / `talkingDetectionEnabled`. -/
def cycleWarnings (c : ClassRec) (classId : String) (cache : List CachedFace)
    (mobileCands talkingCands : List (ℚ × ℚ × ℚ)) : List WarningReq :=
  let _ := c
  handleBehaviorDetected classId (detectBehaviors cache mobileCands talkingCands)

/-! ### Auxiliary definitions for the proofs -/

/-- One finalize update as seen by a single record: set the status computed
from the snapshot record `u` when the ids coincide.
`setStatusById acc u.id (computeFinalStatus c u) = acc.map (applyStatus c u)`
holds by definition. -/
def applyStatus (c : ClassRec) (u x : AttRecord) : AttRecord :=
  if x.id = u.id then { x with status := computeFinalStatus c u } else x

/-- Concrete 60×5 frame for evaluating `calculateFaceScore`: the first 220
pixels in raster order are skin-toned (150, 50, 21), the rest neutral grey. -/
def witnessFrame : ℕ → ℕ → Px :=
  fun x y => if y * 60 + x < 220 then ⟨150, 50, 21⟩ else ⟨100, 100, 100⟩

/-- A concrete active class record (session A). -/
def activeA : ClassRec :=
  { name := "A-class", duration := 60, attendanceThreshold := some 75,
    mobileDetectionEnabled := some true, talkingDetectionEnabled := some false,
    isActive := some true, startedAt := some 1, endedAt := none }

/-- A concrete idle class record (session B). -/
def idleB : ClassRec :=
  { name := "B-class", duration := 90, attendanceThreshold := some 75,
    mobileDetectionEnabled := some true, talkingDetectionEnabled := some false,
    isActive := some false, startedAt := none, endedAt := none }

/-- A concrete class map holding the active class `"A"` and the idle class
`"B"`. -/
def wClasses : ClassMap := fun cid =>
  if cid = "A" then some activeA else if cid = "B" then some idleB else none

/-- Loop invariant of `findNearestDetectedFace`'s fold over the cache:
after scanning `seen`, the accumulator is either the initial
`(null, Infinity)` pair with every scanned face at squared distance at
least `200² = 40000`, or the first strictly-closest scanned face strictly
within range together with its squared distance. -/
def nearestInv (x y : ℚ) (acc : Option CachedFace × Option ℚ)
    (seen : List CachedFace) : Prop :=
  (acc = (none, none) ∧ ∀ f ∈ seen, 40000 ≤ dist2 f.x f.y x y) ∨
  (∃ g, acc = (some g, some (dist2 g.x g.y x y)) ∧ g ∈ seen ∧
    dist2 g.x g.y x y < 40000 ∧
    ∀ f' ∈ seen, dist2 f'.x f'.y x y < 40000 →
      dist2 g.x g.y x y ≤ dist2 f'.x f'.y x y)

/-! ## Helper lemmas -/

lemma setStatusById_eq_map (c : ClassRec) (recs : List AttRecord)
    (u : AttRecord) :
    setStatusById recs u.id (computeFinalStatus c u)
      = recs.map (applyStatus c u) := rfl

lemma foldl_setStatus_swap (c : ClassRec) (L : List AttRecord) :
    ∀ recs : List AttRecord,
      L.foldl (fun acc u => setStatusById acc u.id (computeFinalStatus c u)) recs
        = recs.map (fun r0 => L.foldl (fun x u => applyStatus c u x) r0) := by
  induction L with
  | nil => intro recs; simp
  | cons u L' ih =>
      intro recs
      rw [List.foldl_cons, setStatusById_eq_map, ih, List.map_map]
      apply List.map_congr_left
      intro r0 _
      simp [Function.comp]

lemma foldl_fixed {α β : Type} (f : α → β → α) (x : α) :
    ∀ L : List β, (∀ u ∈ L, f x u = x) → L.foldl f x = x := by
  intro L
  induction L with
  | nil => intro _; rfl
  | cons u L' ih =>
      intro h
      rw [List.foldl_cons, h u (by simp)]
      exact ih (fun v hv => h v (by simp [hv]))

lemma foldl_applyStatus_mem (c : ClassRec) (r : AttRecord) :
    ∀ L : List AttRecord, r ∈ L → (∀ u ∈ L, u.id = r.id → u = r) →
      L.foldl (fun x u => applyStatus c u x) r
        = { r with status := computeFinalStatus c r } := by
  intro L
  induction L with
  | nil => intro h _; exact absurd h (List.not_mem_nil r)
  | cons u L' ih =>
      intro hmem huniq
      rw [List.foldl_cons]
      by_cases hid : r.id = u.id
      · have hu : u = r := huniq u (by simp) hid.symm
        subst hu
        have h1 : applyStatus c u u = { u with status := computeFinalStatus c u } := by
          simp [applyStatus]
        rw [h1]
        apply foldl_fixed
        intro v hv
        by_cases hv2 : v.id = u.id
        · have hvu : v = u := huniq v (by simp [hv]) hv2
          subst hvu
          simp [applyStatus]
        · have hne : ¬ u.id = v.id := fun h => hv2 h.symm
          simp [applyStatus, hne]
      · have h1 : applyStatus c u r = r := by
          simp [applyStatus, hid]
        rw [h1]
        have hmem' : r ∈ L' := by
          rcases List.mem_cons.mp hmem with h | h
          · exact absurd (congrArg AttRecord.id h) (fun hh => hid hh)
          · exact h
        exact ih hmem' (fun v hv hveq => huniq v (by simp [hv]) hveq)

lemma finalizeClass_eq_map (c : ClassRec) (cid : String) (recs : List AttRecord)
    (hnd : (recs.map AttRecord.id).Nodup) :
    finalizeClass c cid recs
      = recs.map (fun r =>
          if r.classId = cid then { r with status := computeFinalStatus c r }
          else r) := by
  have hinj : ∀ u ∈ recs, ∀ v ∈ recs, u.id = v.id → u = v :=
    fun u hu v hv h => List.inj_on_of_nodup_map hnd hu hv h
  unfold finalizeClass
  rw [foldl_setStatus_swap]
  apply List.map_congr_left
  intro r0 hr0
  by_cases hcls : r0.classId = cid
  · have hmem : r0 ∈ recs.filter (fun r => r.classId = cid) := by
      simp [List.mem_filter, hr0, hcls]
    rw [foldl_applyStatus_mem c r0 _ hmem
      (fun u hu hid => hinj u (List.mem_of_mem_filter hu) r0 hr0 hid)]
    simp [hcls]
  · rw [foldl_fixed]
    · simp [hcls]
    · intro u hu
      have hu' := List.mem_filter.mp hu
      have hne : ¬ r0.id = u.id := by
        intro h
        have heq : r0 = u := hinj r0 hr0 u hu'.1 h
        rw [heq] at hcls
        exact hcls (by simpa using hu'.2)
      simp [applyStatus, hne]

lemma computeFinalStatus_status_invariant (c : ClassRec) (r : AttRecord)
    (s : AttStatus) :
    computeFinalStatus c { r with status := s } = computeFinalStatus c r := rfl

/-! ## Claim C1 -/

/-- C1 counterexample: with `attendanceThreshold = 0` stored on the class,
the spec's rule (`percentage ≥ attendanceThreshold`, threshold inclusive)
makes a 50%-attendance record `present`, but the finalize handler's
`attendanceThreshold || 75` coerces the stored 0 to 75 and produces
`late`: the claim's rule and the code disagree at duration 60,
threshold 0, timePresent 30. -/
theorem c1_threshold_zero_counterexample :
    specStatusC1 0 60 30 = AttStatus.present ∧
    finalizeClass
        { name := "CS-101", duration := 60, attendanceThreshold := some 0,
          mobileDetectionEnabled := none, talkingDetectionEnabled := none,
          isActive := some true, startedAt := none, endedAt := none }
        "c1"
        [{ id := 0, studentId := "s1", classId := "c1",
           status := AttStatus.present, timePresent := some 30,
           detectionCount := none, lastSeen := none }]
      = [{ id := 0, studentId := "s1", classId := "c1",
           status := AttStatus.late, timePresent := some 30,
           detectionCount := none, lastSeen := none }] := by
  constructor
  · norm_num [specStatusC1]
  · norm_num [finalizeClass, setStatusById, computeFinalStatus,
      effectiveThreshold, jsOrQ]

/-- C1 (amended): for every attendance record of the class, finalize sets
status by `percentage = timePresent/duration*100`; `present` when the
percentage reaches the *effective* threshold — the stored
`attendanceThreshold` when non-null and nonzero, else 75 — (inclusively);
else `late` when `timePresent > 0` and the percentage is at least 25; else
`absent`; and a record with `timePresent = 0` (or null) finalizes to
`absent` for every null or non-negative stored threshold. -/
theorem finalize_status_rule (c : ClassRec) (cid : String)
    (recs : List AttRecord) (r : AttRecord)
    (hnd : (recs.map AttRecord.id).Nodup) (hr : r ∈ recs)
    (hcls : r.classId = cid) (hdur : 0 < c.duration) :
    ({ r with status :=
        if jsOrQ r.timePresent 0 / c.duration * 100
            ≥ effectiveThreshold c.attendanceThreshold then AttStatus.present
        else if jsOrQ r.timePresent 0 > 0 ∧
            jsOrQ r.timePresent 0 / c.duration * 100 ≥ 25 then AttStatus.late
        else AttStatus.absent } : AttRecord) ∈ finalizeClass c cid recs
    ∧ (jsOrQ r.timePresent 0 = 0 →
        (∀ t, c.attendanceThreshold = some t → 0 ≤ t) →
        ({ r with status := AttStatus.absent } : AttRecord)
          ∈ finalizeClass c cid recs) := by
  have _ := hdur
  rw [finalizeClass_eq_map c cid recs hnd]
  constructor
  · refine List.mem_map.mpr ⟨r, hr, ?_⟩
    rw [if_pos hcls]
    rfl
  · intro h0 hth
    refine List.mem_map.mpr ⟨r, hr, ?_⟩
    rw [if_pos hcls]
    have hstat : computeFinalStatus c r = AttStatus.absent := by
      have hthr : ¬ ((0 : ℚ) ≥ effectiveThreshold c.attendanceThreshold) := by
        unfold effectiveThreshold jsOrQ
        cases h : c.attendanceThreshold with
        | none => norm_num
        | some t =>
            have ht := hth t h
            by_cases ht0 : t = 0
            · simp [ht0]
            · have htpos : 0 < t := lt_of_le_of_ne ht (Ne.symm ht0)
              simp only [ht0, if_false]
              exact not_le.mpr htpos
      simp only [computeFinalStatus, h0, zero_div, zero_mul]
      rw [if_neg hthr]
      norm_num
    rw [hstat]

/-! ## Claim C2 -/

/-- C2: finalize is idempotent — with the class row unchanged (its duration
and threshold are not touched by finalize) and no intervening detections
(finalize writes only `status`, never `timePresent`), running the finalize
handler twice yields exactly the record set of running it once. -/
theorem finalize_idempotent (c : ClassRec) (cid : String)
    (recs : List AttRecord) (hnd : (recs.map AttRecord.id).Nodup) :
    finalizeClass c cid (finalizeClass c cid recs)
      = finalizeClass c cid recs := by
  have hid : (AttRecord.id ∘ fun r : AttRecord =>
      if r.classId = cid then { r with status := computeFinalStatus c r }
      else r) = AttRecord.id := by
    funext r
    by_cases h : r.classId = cid <;> simp [Function.comp, h]
  have hnd2 : ((finalizeClass c cid recs).map AttRecord.id).Nodup := by
    rw [finalizeClass_eq_map c cid recs hnd, List.map_map, hid]
    exact hnd
  rw [finalizeClass_eq_map c cid _ hnd2, finalizeClass_eq_map c cid recs hnd,
    List.map_map]
  apply List.map_congr_left
  intro r _
  simp only [Function.comp]
  by_cases h : r.classId = cid
  · rw [if_pos h,
      if_pos (show ({ r with status := computeFinalStatus c r } :
        AttRecord).classId = cid from h)]
    rfl
  · rw [if_neg h, if_neg h]

/-- C2 witness: the idempotence theorem applied to a concrete class and a
concrete two-record state. -/
theorem finalize_idempotent_witness :
    (([{ id := 0, studentId := "s1", classId := "c1",
         status := AttStatus.present, timePresent := some 50,
         detectionCount := none, lastSeen := none },
       { id := 1, studentId := "s2", classId := "c1",
         status := AttStatus.present, timePresent := some 10,
         detectionCount := none, lastSeen := none }].map AttRecord.id).Nodup)
    ∧ finalizeClass
        { name := "CS-101", duration := 60, attendanceThreshold := some 75,
          mobileDetectionEnabled := none, talkingDetectionEnabled := none,
          isActive := some true, startedAt := none, endedAt := none }
        "c1"
        (finalizeClass
          { name := "CS-101", duration := 60, attendanceThreshold := some 75,
            mobileDetectionEnabled := none, talkingDetectionEnabled := none,
            isActive := some true, startedAt := none, endedAt := none }
          "c1"
          [{ id := 0, studentId := "s1", classId := "c1",
             status := AttStatus.present, timePresent := some 50,
             detectionCount := none, lastSeen := none },
           { id := 1, studentId := "s2", classId := "c1",
             status := AttStatus.present, timePresent := some 10,
             detectionCount := none, lastSeen := none }])
      = finalizeClass
          { name := "CS-101", duration := 60, attendanceThreshold := some 75,
            mobileDetectionEnabled := none, talkingDetectionEnabled := none,
            isActive := some true, startedAt := none, endedAt := none }
          "c1"
          [{ id := 0, studentId := "s1", classId := "c1",
             status := AttStatus.present, timePresent := some 50,
             detectionCount := none, lastSeen := none },
           { id := 1, studentId := "s2", classId := "c1",
             status := AttStatus.present, timePresent := some 10,
             detectionCount := none, lastSeen := none }] :=
  ⟨by simp, finalize_idempotent _ "c1" _ (by simp)⟩

/-- C1 witness: the amended status rule applied to a concrete class
(duration 60, threshold 75) and a concrete record with 50 minutes present. -/
theorem finalize_status_rule_witness :
    (0 : ℚ) < 60 ∧
    ({ id := 0, studentId := "s1", classId := "c1",
       status :=
        if jsOrQ (some 50) 0 / (60 : ℚ) * 100
            ≥ effectiveThreshold (some 75) then AttStatus.present
        else if jsOrQ (some 50) 0 > 0 ∧
            jsOrQ (some 50) 0 / (60 : ℚ) * 100 ≥ 25 then AttStatus.late
        else AttStatus.absent,
       timePresent := some 50,
       detectionCount := none, lastSeen := none } : AttRecord) ∈
      finalizeClass
        { name := "CS-101", duration := 60, attendanceThreshold := some 75,
          mobileDetectionEnabled := none, talkingDetectionEnabled := none,
          isActive := some true, startedAt := none, endedAt := none }
        "c1"
        [{ id := 0, studentId := "s1", classId := "c1",
           status := AttStatus.present, timePresent := some 50,
           detectionCount := none, lastSeen := none }] :=
  ⟨by norm_num,
   (finalize_status_rule
      { name := "CS-101", duration := 60, attendanceThreshold := some 75,
        mobileDetectionEnabled := none, talkingDetectionEnabled := none,
        isActive := some true, startedAt := none, endedAt := none }
      "c1"
      [{ id := 0, studentId := "s1", classId := "c1",
         status := AttStatus.present, timePresent := some 50,
         detectionCount := none, lastSeen := none }]
      { id := 0, studentId := "s1", classId := "c1",
        status := AttStatus.present, timePresent := some 50,
        detectionCount := none, lastSeen := none }
      (by simp) (by simp) rfl (by norm_num)).1⟩

/-! ## Claim C3 -/

/-- C3: starting session `B` while `A` is active ends `A` (`isActive` set
to `false`, `endedAt` stamped) and activates `B`, and in the resulting
class map at most one class is active — `startClass` re-establishes the
single-active-session invariant unconditionally. -/
theorem startClass_single_active (classes : ClassMap) (A B : String)
    (a b : ClassRec) (now : ℚ)
    (hAB : A ≠ B) (hB : classes B = some b) (hA : classes A = some a)
    (ha : classActive a) :
    ∃ s', startClass classes B now = some s' ∧
      s' B = some { b with isActive := some true, startedAt := some now,
                           endedAt := none } ∧
      s' A = some { a with isActive := some false, endedAt := some now } ∧
      atMostOneActive s' := by
  unfold startClass
  rw [hB]
  refine ⟨_, rfl, ?_, ?_, ?_⟩
  · simp
  · simp only [if_neg hAB, hA]
    rw [if_pos ha]
  · have hinact : ∀ j cj, j ≠ B →
        (if j = B then
          some { b with isActive := some true, startedAt := some now,
                        endedAt := none }
        else
          match classes j with
          | some c =>
              if classActive c then
                some { c with isActive := some false, endedAt := some now }
              else some c
          | none => none) = some cj → ¬ classActive cj := by
      intro j cj hj hcj
      rw [if_neg hj] at hcj
      cases hc : classes j with
      | none =>
          simp only [hc] at hcj
          exact absurd hcj (by simp)
      | some c =>
          simp only [hc] at hcj
          by_cases hact : classActive c
          · rw [if_pos hact] at hcj
            have : cj.isActive = some false := by
              cases hcj0 : cj
              rw [hcj0] at hcj
              injection hcj with h
              rw [← h]
            intro habs
            rw [habs] at this
            exact absurd this (by simp)
          · rw [if_neg hact] at hcj
            injection hcj with h
            rw [← h]
            exact hact
    intro i j ci cj hi hj hci hcj
    by_cases hiB : i = B
    · by_cases hjB : j = B
      · rw [hiB, hjB]
      · exact absurd hcj (hinact j cj hjB hj)
    · exact absurd hci (hinact i ci hiB hi)

/-- C3 witness: the theorem applied to the concrete map holding active
class `"A"` and idle class `"B"`. -/
theorem startClass_single_active_witness :
    ("A" : String) ≠ "B" ∧
    (∃ s', startClass wClasses "B" 5 = some s' ∧
      s' "B" = some { idleB with isActive := some true, startedAt := some 5,
                                 endedAt := none } ∧
      s' "A" = some { activeA with isActive := some false,
                                   endedAt := some 5 } ∧
      atMostOneActive s') :=
  ⟨by decide,
   startClass_single_active wClasses "A" "B" activeA idleB 5 (by decide)
     rfl rfl rfl⟩

/-! ## Claim C4 -/

/-- C4 (code bug): two detection events for the same
`(studentId, classId) = ("s1", "c1")` pair leave *two* attendance records
for that pair instead of one — the handler's lookup
`storage.getAttendanceRecord(classId, studentId)` (storage.ts line 569)
passes the arguments in the opposite order to the method's
`(studentId, classId)` signature, so the existing record is never found
and a duplicate is created. -/
theorem detection_upsert_duplicates :
    ((updateFromDetection
        (updateFromDetection { nextId := 0, recs := [] } "c1" "s1"
          (some 5) none 1)
        "c1" "s1" (some 10) none 2).recs.filter
      (fun r => r.studentId = "s1" ∧ r.classId = "c1")).length = 2 := by
  have h1 : updateFromDetection { nextId := 0, recs := [] } "c1" "s1"
      (some 5) none 1
      = { nextId := 1,
          recs := [{ id := 0, studentId := "s1", classId := "c1",
                     status := AttStatus.present, timePresent := some 5,
                     detectionCount := none, lastSeen := some 1 }] } := by
    simp [updateFromDetection, getAttendanceRecordL, jsOrQ]
  rw [h1]
  have h2 : updateFromDetection
      { nextId := 1,
        recs := [{ id := 0, studentId := "s1", classId := "c1",
                   status := AttStatus.present, timePresent := some 5,
                   detectionCount := none, lastSeen := some 1 }] }
      "c1" "s1" (some 10) none 2
      = { nextId := 2,
          recs := [{ id := 0, studentId := "s1", classId := "c1",
                     status := AttStatus.present, timePresent := some 5,
                     detectionCount := none, lastSeen := some 1 },
                   { id := 1, studentId := "s1", classId := "c1",
                     status := AttStatus.present, timePresent := some 10,
                     detectionCount := none, lastSeen := some 2 }] } := by
    simp [updateFromDetection, getAttendanceRecordL, jsOrQ]
  rw [h2]
  simp

/-! ## Claim C5 -/

/-- C5 counterexample: a detection event carrying `timePresent = 10`
against an existing record with `timePresent = 50` *decreases* the stored
`timePresent` to 10, and leaves `detectionCount` at 3 instead of
incrementing it (the update branch never touches `detectionCount`). The
pre-state record is keyed so that the handler's swapped lookup finds it. -/
theorem detection_update_decreases_counterexample :
    (updateFromDetection
        { nextId := 1,
          recs := [{ id := 0, studentId := "c1", classId := "s1",
                     status := AttStatus.present, timePresent := some 50,
                     detectionCount := some 3, lastSeen := some 5 }] }
        "c1" "s1" (some 10) (some 7) 9).recs
      = [{ id := 0, studentId := "c1", classId := "s1",
           status := AttStatus.present, timePresent := some 10,
           detectionCount := some 3, lastSeen := some 7 }]
    ∧ (10 : ℚ) < 50 := by
  constructor
  · norm_num [updateFromDetection, getAttendanceRecordL, setDetectionById,
      jsOrQ]
  · norm_num

/-- C5 (amended): when the detection handler's lookup finds an existing
record, the update sets `timePresent` to the event's value whenever that
value is present and nonzero (keeping the old value otherwise) — so it is
non-decreasing only if the caller sends non-decreasing cumulative values —
sets `lastSeen` to the event's timestamp (or now), and leaves
`detectionCount` and `status` unchanged. -/
theorem detection_update_characterization (st : AttState)
    (classId studentId : String) (tp ls : Option ℚ) (now : ℚ) (r : AttRecord)
    (hfind : getAttendanceRecordL st.recs classId studentId = some r) :
    ({ r with
        timePresent :=
          match tp with
          | some v => if v = 0 then r.timePresent else some v
          | none => r.timePresent,
        lastSeen := some (ls.getD now) } : AttRecord)
      ∈ (updateFromDetection st classId studentId tp ls now).recs
    ∧ ({ r with
          timePresent :=
            match tp with
            | some v => if v = 0 then r.timePresent else some v
            | none => r.timePresent,
          lastSeen := some (ls.getD now) } : AttRecord).detectionCount
        = r.detectionCount := by
  constructor
  · unfold updateFromDetection
    rw [hfind]
    have hmem : r ∈ st.recs := List.mem_of_find?_eq_some hfind
    exact List.mem_map.mpr ⟨r, hmem, by simp [setDetectionById]⟩
  · rfl

/-- C5 witness: the update-branch characterization applied to a concrete
state holding one record the swapped lookup matches. -/
theorem detection_update_characterization_witness :
    getAttendanceRecordL
        [{ id := 0, studentId := "c1", classId := "s1",
           status := AttStatus.present, timePresent := some 50,
           detectionCount := some 3, lastSeen := some 5 }] "c1" "s1"
      = some { id := 0, studentId := "c1", classId := "s1",
               status := AttStatus.present, timePresent := some 50,
               detectionCount := some 3, lastSeen := some 5 }
    ∧ ({ id := 0, studentId := "c1", classId := "s1",
         status := AttStatus.present,
         timePresent :=
           match (some (10 : ℚ) : Option ℚ) with
           | some v => if v = 0 then some (50 : ℚ) else some v
           | none => some (50 : ℚ),
         detectionCount := some 3,
         lastSeen := some ((some (7 : ℚ) : Option ℚ).getD 9) } : AttRecord)
        ∈ (updateFromDetection
            { nextId := 1,
              recs := [{ id := 0, studentId := "c1", classId := "s1",
                         status := AttStatus.present, timePresent := some 50,
                         detectionCount := some 3, lastSeen := some 5 }] }
            "c1" "s1" (some 10) (some 7) 9).recs :=
  ⟨by simp [getAttendanceRecordL],
   (detection_update_characterization
      { nextId := 1,
        recs := [{ id := 0, studentId := "c1", classId := "s1",
                   status := AttStatus.present, timePresent := some 50,
                   detectionCount := some 3, lastSeen := some 5 }] }
      "c1" "s1" (some 10) (some 7) 9
      { id := 0, studentId := "c1", classId := "s1",
        status := AttStatus.present, timePresent := some 50,
        detectionCount := some 3, lastSeen := some 5 }
      (by simp [getAttendanceRecordL])).1⟩

/-! ## Claim C8 -/

/-- C8 counterexample: with the finalize request failing and the end-class
request succeeding, `endClassMutation` reports success — the finalize
failure is logged (`console.warn`) and swallowed, contradicting the claim
that it propagates to the caller. -/
theorem end_flow_swallows_finalize_failure :
    endClassFlow false true = EndFlowResult.success := rfl

/-- C8 (amended): a failed `finalizeAttendance` call does *not* propagate:
the session-end flow reports success exactly when the end-class request
succeeds, irrespective of the finalize outcome. -/
theorem end_flow_success_iff (finalizeOk endOk : Bool) :
    endClassFlow finalizeOk endOk = EndFlowResult.success ↔ endOk = true := by
  cases endOk <;> simp [endClassFlow]


/-! ## Claim C6 -/

lemma rosterGet_get (roster : List (String × StudentProfile))
    (hnd : (roster.map Prod.fst).Nodup) :
    ∀ i (h : i < roster.length),
      rosterGet roster (roster.get ⟨i, h⟩).1 = some (roster.get ⟨i, h⟩).2 := by
  induction roster with
  | nil => intro i h; exact absurd h (by simp)
  | cons e rest ih =>
      intro i h
      cases i with
      | zero => simp [rosterGet]
      | succ n =>
          have h' : n < rest.length := by simpa using h
          have hmem : (rest.get ⟨n, h'⟩).1 ∈ rest.map Prod.fst :=
            List.mem_map_of_mem Prod.fst (rest.get_mem n h')
          have hnotin : e.1 ∉ rest.map Prod.fst :=
            (List.nodup_cons.mp (by simpa using hnd)).1
          have hne : ¬ (e.1 = (rest.get ⟨n, h'⟩).1) := by
            intro hh
            exact hnotin (hh ▸ hmem)
          have htail := ih (List.nodup_cons.mp (by simpa using hnd)).2 n h'
          have hred : ((e :: rest).get ⟨n + 1, h⟩) = rest.get ⟨n, h'⟩ := rfl
          rw [hred]
          unfold rosterGet at htail ⊢
          rw [List.find?_cons_of_neg]
          · exact htail
          · simpa using hne

lemma matchFaces_go (roster : List (String × StudentProfile))
    (conf : ℕ → ℚ) (hnd : (roster.map Prod.fst).Nodup) :
    ∀ (faces : List FaceBox) (k : ℕ),
      (matchFacesToStudents roster conf k faces).length
          = min faces.length (roster.length - k)
      ∧ ∀ i (hf : i < faces.length) (hr : k + i < roster.length),
          (matchFacesToStudents roster conf k faces)[i]? =
            some { x := (faces.get ⟨i, hf⟩).x, y := (faces.get ⟨i, hf⟩).y,
                   width := (faces.get ⟨i, hf⟩).width,
                   height := (faces.get ⟨i, hf⟩).height,
                   confidence := conf (k + i),
                   studentId := (roster.get ⟨k + i, hr⟩).1,
                   studentName := (roster.get ⟨k + i, hr⟩).2.name } := by
  intro faces
  induction faces with
  | nil =>
      intro k
      constructor
      · simp [matchFacesToStudents]
      · intro i hf
        exact absurd hf (by simp)
  | cons f rest ih =>
      intro k
      by_cases hk : k < roster.length
      · have hget := rosterGet_get roster hnd k hk
        have hstep : matchFacesToStudents roster conf k (f :: rest)
            = { x := f.x, y := f.y, width := f.width, height := f.height,
                confidence := conf k,
                studentId := (roster.get ⟨k, hk⟩).1,
                studentName := (roster.get ⟨k, hk⟩).2.name }
              :: matchFacesToStudents roster conf (k + 1) rest := by
          rw [matchFacesToStudents]
          rw [dif_pos hk, hget]
        constructor
        · rw [hstep]
          have hlen := (ih (k + 1)).1
          simp only [List.length_cons, hlen]
          omega
        · intro i hf hr
          cases i with
          | zero =>
              rw [hstep]
              simp
          | succ n =>
              rw [hstep]
              have hn : n < rest.length := by simpa using hf
              have hrn : (k + 1) + n < roster.length := by omega
              have hrec := (ih (k + 1)).2 n hn hrn
              simp only [List.getElem?_cons_succ]
              rw [hrec]
              have hfin : (⟨k + 1 + n, hrn⟩ : Fin roster.length)
                  = ⟨k + (n + 1), hr⟩ := by
                rw [Fin.mk.injEq]
                omega
              have hconf : k + 1 + n = k + (n + 1) := by omega
              rw [hfin, hconf]
              rfl
      · have hstep : matchFacesToStudents roster conf k (f :: rest)
            = matchFacesToStudents roster conf (k + 1) rest := by
          rw [matchFacesToStudents]
          rw [dif_neg hk]
        constructor
        · rw [hstep]
          have hlen := (ih (k + 1)).1
          rw [hlen]
          omega
        · intro i hf hr
          exact absurd hr (by omega)

/-- C6: ordinal matching — for every list of accepted face candidates and
every roster of students-with-photos (with distinct ids, as `Map` keys
are), the matched output has `min(#faces, #roster)` entries and its i-th
entry pairs the i-th accepted face in scan order with the i-th roster
student; faces beyond the roster length are left unmatched (absent from
the output). With 3 roster students and 5 faces this assigns identities to
exactly the first 3 candidates. -/
theorem matchFaces_ordinal (roster : List (String × StudentProfile))
    (conf : ℕ → ℚ) (faces : List FaceBox)
    (hnd : (roster.map Prod.fst).Nodup) :
    (matchFacesToStudents roster conf 0 faces).length
        = min faces.length roster.length
    ∧ ∀ i (hf : i < faces.length) (hr : i < roster.length),
        (matchFacesToStudents roster conf 0 faces)[i]? =
          some { x := (faces.get ⟨i, hf⟩).x, y := (faces.get ⟨i, hf⟩).y,
                 width := (faces.get ⟨i, hf⟩).width,
                 height := (faces.get ⟨i, hf⟩).height,
                 confidence := conf i,
                 studentId := (roster.get ⟨i, hr⟩).1,
                 studentName := (roster.get ⟨i, hr⟩).2.name } := by
  have h := matchFaces_go roster conf hnd faces 0
  constructor
  · rw [h.1]
    simp
  · intro i hf hr
    have := h.2 i hf (by omega)
    simpa using this

/-- C6 witness: the ordinal-matching theorem applied to a concrete roster
of 3 students and 5 accepted face candidates. -/
theorem matchFaces_ordinal_witness :
    (([("s1", ⟨"Alice"⟩), ("s2", ⟨"Bob"⟩), ("s3", ⟨"Cara"⟩)]
        : List (String × StudentProfile)).map Prod.fst).Nodup
    ∧ ((matchFacesToStudents
          [("s1", ⟨"Alice"⟩), ("s2", ⟨"Bob"⟩), ("s3", ⟨"Cara"⟩)]
          (fun _ => 80) 0
          [⟨0, 0, 80, 100⟩, ⟨100, 0, 80, 100⟩, ⟨200, 0, 80, 100⟩,
           ⟨300, 0, 80, 100⟩, ⟨400, 0, 80, 100⟩]).length
        = min 5 3
      ∧ ∀ i (hf : i < ([⟨0, 0, 80, 100⟩, ⟨100, 0, 80, 100⟩,
            ⟨200, 0, 80, 100⟩, ⟨300, 0, 80, 100⟩, ⟨400, 0, 80, 100⟩]
            : List FaceBox).length)
          (hr : i < ([("s1", ⟨"Alice"⟩), ("s2", ⟨"Bob"⟩), ("s3", ⟨"Cara"⟩)]
            : List (String × StudentProfile)).length),
          (matchFacesToStudents
            [("s1", ⟨"Alice"⟩), ("s2", ⟨"Bob"⟩), ("s3", ⟨"Cara"⟩)]
            (fun _ => 80) 0
            [⟨0, 0, 80, 100⟩, ⟨100, 0, 80, 100⟩, ⟨200, 0, 80, 100⟩,
             ⟨300, 0, 80, 100⟩, ⟨400, 0, 80, 100⟩])[i]? =
            some { x := (([⟨0, 0, 80, 100⟩, ⟨100, 0, 80, 100⟩,
                     ⟨200, 0, 80, 100⟩, ⟨300, 0, 80, 100⟩, ⟨400, 0, 80, 100⟩]
                     : List FaceBox).get ⟨i, hf⟩).x,
                   y := (([⟨0, 0, 80, 100⟩, ⟨100, 0, 80, 100⟩,
                     ⟨200, 0, 80, 100⟩, ⟨300, 0, 80, 100⟩, ⟨400, 0, 80, 100⟩]
                     : List FaceBox).get ⟨i, hf⟩).y,
                   width := (([⟨0, 0, 80, 100⟩, ⟨100, 0, 80, 100⟩,
                     ⟨200, 0, 80, 100⟩, ⟨300, 0, 80, 100⟩, ⟨400, 0, 80, 100⟩]
                     : List FaceBox).get ⟨i, hf⟩).width,
                   height := (([⟨0, 0, 80, 100⟩, ⟨100, 0, 80, 100⟩,
                     ⟨200, 0, 80, 100⟩, ⟨300, 0, 80, 100⟩, ⟨400, 0, 80, 100⟩]
                     : List FaceBox).get ⟨i, hf⟩).height,
                   confidence := 80,
                   studentId := (([("s1", ⟨"Alice"⟩), ("s2", ⟨"Bob"⟩),
                     ("s3", ⟨"Cara"⟩)] : List (String × StudentProfile)).get
                     ⟨i, hr⟩).1,
                   studentName := (([("s1", ⟨"Alice"⟩), ("s2", ⟨"Bob"⟩),
                     ("s3", ⟨"Cara"⟩)] : List (String × StudentProfile)).get
                     ⟨i, hr⟩).2.name }) :=
  ⟨by simp,
   matchFaces_ordinal
     [("s1", ⟨"Alice"⟩), ("s2", ⟨"Bob"⟩), ("s3", ⟨"Cara"⟩)]
     (fun _ => 80)
     [⟨0, 0, 80, 100⟩, ⟨100, 0, 80, 100⟩, ⟨200, 0, 80, 100⟩,
      ⟨300, 0, 80, 100⟩, ⟨400, 0, 80, 100⟩]
     (by simp)⟩

/-! ## Claim C7 -/

lemma findNearest_fold (x y : ℚ) :
    ∀ (rest : List CachedFace) (acc : Option CachedFace × Option ℚ)
      (seen : List CachedFace),
      nearestInv x y acc seen →
      nearestInv x y
        (rest.foldl
          (fun (acc : Option CachedFace × Option ℚ) face =>
            let d := dist2 face.x face.y x y
            match acc.2 with
            | none => if d < 40000 then (some face, some d) else acc
            | some m =>
                if d < m ∧ d < 40000 then (some face, some d) else acc)
          acc)
        (seen ++ rest) := by
  intro rest
  induction rest with
  | nil => intro acc seen h; simpa using h
  | cons g rest' ih =>
      intro acc seen h
      rw [List.foldl_cons]
      have hstep : nearestInv x y
          ((fun (acc : Option CachedFace × Option ℚ) face =>
            let d := dist2 face.x face.y x y
            match acc.2 with
            | none => if d < 40000 then (some face, some d) else acc
            | some m =>
                if d < m ∧ d < 40000 then (some face, some d) else acc)
            acc g)
          (seen ++ [g]) := by
        rcases h with ⟨hacc, hfar⟩ | ⟨gc, hacc, hmem, hlt, hmin⟩
        · subst hacc
          by_cases hd : dist2 g.x g.y x y < 40000
          · right
            refine ⟨g, by simp [hd], by simp, hd, ?_⟩
            intro f' hf' hd'
            rcases List.mem_append.mp hf' with hf' | hf'
            · exact absurd hd' (not_lt.mpr (hfar f' hf'))
            · have : f' = g := by simpa using hf'
              rw [this]
          · left
            refine ⟨by simp [hd], ?_⟩
            intro f' hf'
            rcases List.mem_append.mp hf' with hf' | hf'
            · exact hfar f' hf'
            · have : f' = g := by simpa using hf'
              rw [this]
              exact not_lt.mp hd
        · subst hacc
          by_cases hcond : dist2 g.x g.y x y < dist2 gc.x gc.y x y ∧
              dist2 g.x g.y x y < 40000
          · right
            refine ⟨g, by simp [hcond], by simp, hcond.2, ?_⟩
            intro f' hf' hd'
            rcases List.mem_append.mp hf' with hf' | hf'
            · exact le_of_lt (lt_of_lt_of_le hcond.1 (hmin f' hf' hd'))
            · have : f' = g := by simpa using hf'
              rw [this]
          · right
            refine ⟨gc, by simp [hcond], List.mem_append_left _ hmem, hlt, ?_⟩
            intro f' hf' hd'
            rcases List.mem_append.mp hf' with hf' | hf'
            · exact hmin f' hf' hd'
            · have hfg : f' = g := by simpa using hf'
              rw [hfg]
              rcases not_and_or.mp hcond with hc | hc
              · exact not_lt.mp hc
              · rw [hfg] at hd'
                exact absurd hd' hc
      have hres := ih _ (seen ++ [g]) hstep
      simpa using hres

lemma findNearest_none_iff (cache : List CachedFace) (x y : ℚ) :
    findNearestDetectedFace cache x y = none ↔
      ∀ f ∈ cache, 40000 ≤ dist2 f.x f.y x y := by
  have h := findNearest_fold x y cache (none, none) [] (Or.inl ⟨rfl, by simp⟩)
  rcases h with ⟨hacc, hfar⟩ | ⟨g, hacc, hmem, hlt, hmin⟩
  · constructor
    · intro _ f hf
      exact hfar f (by simpa using hf)
    · intro _
      unfold findNearestDetectedFace
      rw [hacc]
  · constructor
    · intro hnone
      unfold findNearestDetectedFace at hnone
      rw [hacc] at hnone
      exact absurd hnone (by simp)
    · intro hfar
      exact absurd hlt (not_lt.mpr (hfar g (by simpa using hmem)))

lemma findNearest_some_spec (cache : List CachedFace) (x y : ℚ)
    (g : CachedFace) (hg : findNearestDetectedFace cache x y = some g) :
    g ∈ cache ∧ dist2 g.x g.y x y < 40000 ∧
      ∀ f' ∈ cache, dist2 f'.x f'.y x y < 40000 →
        dist2 g.x g.y x y ≤ dist2 f'.x f'.y x y := by
  have h := findNearest_fold x y cache (none, none) [] (Or.inl ⟨rfl, by simp⟩)
  rcases h with ⟨hacc, hfar⟩ | ⟨g', hacc, hmem, hlt, hmin⟩
  · unfold findNearestDetectedFace at hg
    rw [hacc] at hg
    exact absurd hg (by simp)
  · unfold findNearestDetectedFace at hg
    rw [hacc] at hg
    have hgg : g' = g := by simpa using hg
    subst hgg
    exact ⟨by simpa using hmem, hlt,
      fun f' hf' hd => hmin f' (by simpa using hf') hd⟩

/-- C7 (amended): the behavior-to-identity matching compares the
candidate's *top-left scan position* `(x, y)` (not its centre) with the
cached faces' stored positions: a mobile or talking candidate with no
cached face strictly within 200px of its scan position is dropped — it is
absent from the emitted behavior list and produces no warning — and when
some cached face is strictly within 200px the behavior is attributed to
the closest such face. -/
theorem behavior_nearest_gating (cache : List CachedFace) (x y score : ℚ)
    (cid : String) :
    ((∀ f ∈ cache, 40000 ≤ dist2 f.x f.y x y) →
        mobileBehaviorAt cache x y score = none ∧
        talkingBehaviorAt cache x y score = none ∧
        handleBehaviorDetected cid
          (detectBehaviors cache [(x, y, score)] [(x, y, score)]) = [])
    ∧ (∀ g, findNearestDetectedFace cache x y = some g →
        g ∈ cache ∧ dist2 g.x g.y x y < 40000 ∧
        (∀ f' ∈ cache, dist2 f'.x f'.y x y < 40000 →
          dist2 g.x g.y x y ≤ dist2 f'.x f'.y x y) ∧
        mobileBehaviorAt cache x y score
          = some { btype := "mobile",
                   confidence := (Int.floor (score * 100) : ℚ),
                   studentId := some g.studentId,
                   studentName := some g.studentName }) := by
  constructor
  · intro hfar
    have hnone : findNearestDetectedFace cache x y = none :=
      (findNearest_none_iff cache x y).mpr hfar
    refine ⟨?_, ?_, ?_⟩
    · simp [mobileBehaviorAt, hnone]
    · simp [talkingBehaviorAt, hnone]
    · simp [handleBehaviorDetected, detectBehaviors, detectMobilePhoneL,
        detectTalkingL, mobileBehaviorAt, talkingBehaviorAt, hnone]
  · intro g hg
    have hspec := findNearest_some_spec cache x y g hg
    refine ⟨hspec.1, hspec.2.1, hspec.2.2, ?_⟩
    simp [mobileBehaviorAt, hg]

/-- C7 witness: the gating theorem applied to a concrete cache whose only
face is 300px away from the candidate's scan position: no behavior is
emitted and no warning is created. -/
theorem behavior_nearest_gating_witness :
    (∀ f ∈ [({ x := 300, y := 0, studentId := "s1", studentName := "Alice" }
        : CachedFace)], 40000 ≤ dist2 f.x f.y 0 0)
    ∧ (mobileBehaviorAt
        [{ x := 300, y := 0, studentId := "s1", studentName := "Alice" }]
        0 0 1 = none
      ∧ talkingBehaviorAt
        [{ x := 300, y := 0, studentId := "s1", studentName := "Alice" }]
        0 0 1 = none
      ∧ handleBehaviorDetected "c1"
          (detectBehaviors
            [{ x := 300, y := 0, studentId := "s1", studentName := "Alice" }]
            [(0, 0, 1)] [(0, 0, 1)]) = []) :=
  ⟨by
    intro f hf
    rw [List.mem_singleton] at hf
    subst hf
    norm_num [dist2],
   (behavior_nearest_gating
      [{ x := 300, y := 0, studentId := "s1", studentName := "Alice" }]
      0 0 1 "c1").1
     (by
       intro f hf
       rw [List.mem_singleton] at hf
       subst hf
       norm_num [dist2])⟩

/-- C7 counterexample: the claim measures from the candidate's *centre*.
A mobile candidate scanned at (200, 200) has centre (220, 240); the only
cached face sits at (50, 80), which is 230px from that centre — by the
claim the candidate must be dropped and produce no BehaviorWarning — yet
the code measures corner-to-corner (≈192px < 200), attributes the
behavior to that face, and a warning is created. -/
theorem behavior_center_distance_counterexample :
    ¬ specMobileCenterNear
        [{ x := 50, y := 80, studentId := "s1", studentName := "Alice" }]
        200 200
    ∧ mobileBehaviorAt
        [{ x := 50, y := 80, studentId := "s1", studentName := "Alice" }]
        200 200 1
      = some { btype := "mobile", confidence := 100,
               studentId := some "s1", studentName := some "Alice" }
    ∧ handleBehaviorDetected "c1"
        (detectBehaviors
          [{ x := 50, y := 80, studentId := "s1", studentName := "Alice" }]
          [(200, 200, 1)] [])
      = [{ studentId := "s1", classId := "c1", warningType := "mobile",
           description := "mobile detected with confidence" }] := by
  have hfind : findNearestDetectedFace
      [{ x := 50, y := 80, studentId := "s1", studentName := "Alice" }]
      200 200
      = some { x := 50, y := 80, studentId := "s1", studentName := "Alice" } := by
    norm_num [findNearestDetectedFace, dist2]
  refine ⟨?_, ?_, ?_⟩
  · intro hnear
    rcases hnear with ⟨f, hf, hd⟩
    rw [List.mem_singleton] at hf
    subst hf
    norm_num [dist2] at hd
  · rw [mobileBehaviorAt, hfind]
    norm_num
  · simp only [detectBehaviors, detectMobilePhoneL, detectTalkingL,
      List.filterMap, mobileBehaviorAt, hfind]
    norm_num [handleBehaviorDetected]
    rfl

/-! ## Claim C9 -/

lemma foldl_add_shift {M α : Type} [AddCommMonoid M] (g : α → M)
    (l : List α) :
    ∀ a : M, l.foldl (fun acc p => acc + g p) a
      = a + l.foldl (fun acc p => acc + g p) 0 := by
  induction l with
  | nil => intro a; simp
  | cons p rest ih =>
      intro a
      rw [List.foldl_cons, List.foldl_cons, ih (a + g p), ih (0 + g p)]
      simp [add_assoc]

lemma brightness_sum_cast (px : List Px) :
    ∀ a : ℚ, px.foldl (fun acc p => acc + ((p.r : ℚ) + p.g + p.b) / 3) a
      = a + ((px.foldl (fun acc p => acc + (p.r + p.g + p.b)) 0 : ℕ) : ℚ) / 3 := by
  induction px with
  | nil => intro a; simp
  | cons p rest ih =>
      intro a
      rw [List.foldl_cons, ih, List.foldl_cons,
        foldl_add_shift (fun q => q.r + q.g + q.b) rest (0 + (p.r + p.g + p.b))]
      push_cast
      ring

/-- C9: for every frame and region whose skin ratio lies strictly inside
(0.2, 0.8), whose mean brightness lies strictly inside (60, 200), and
whose skin-pixel count exceeds 200, `calculateFaceScore` returns exactly
1 (= 0.4 + 0.3 + 0.3); and for every region meeting none of the three
conditions it returns exactly 0. -/
theorem faceScore_extremes (frame : ℕ → ℕ → Px)
    (width height startX startY : ℕ) :
    ((skinRatioOf frame width height startX startY > 1/5 ∧
      skinRatioOf frame width height startX startY < 4/5) ∧
     (avgBrightnessOf frame width height startX startY > 60 ∧
      avgBrightnessOf frame width height startX startY < 200) ∧
     skinPixelCount frame width height startX startY > 200 →
       calculateFaceScore frame width height startX startY = 1)
    ∧ (¬(skinRatioOf frame width height startX startY > 1/5 ∧
         skinRatioOf frame width height startX startY < 4/5) ∧
       ¬(avgBrightnessOf frame width height startX startY > 60 ∧
         avgBrightnessOf frame width height startX startY < 200) ∧
       ¬(skinPixelCount frame width height startX startY > 200) →
         calculateFaceScore frame width height startX startY = 0) := by
  constructor
  · rintro ⟨h1, h2, h3⟩
    simp only [calculateFaceScore]
    rw [if_pos h1, if_pos h2, if_pos h3]
    norm_num
  · rintro ⟨h1, h2, h3⟩
    simp only [calculateFaceScore]
    rw [if_neg h1, if_neg h2, if_neg h3]
    norm_num

set_option maxRecDepth 100000 in
/-- C9 witness: on the concrete 60×5 `witnessFrame`, the region statistics
are skin ratio 220/300, mean brightness 72620/900 and 220 skin pixels, all
three conditions hold, and the score evaluates to exactly 1. -/
theorem faceScore_extremes_witness :
    ((skinRatioOf witnessFrame 60 5 0 0 > 1/5 ∧
      skinRatioOf witnessFrame 60 5 0 0 < 4/5) ∧
     (avgBrightnessOf witnessFrame 60 5 0 0 > 60 ∧
      avgBrightnessOf witnessFrame 60 5 0 0 < 200) ∧
     skinPixelCount witnessFrame 60 5 0 0 > 200)
    ∧ calculateFaceScore witnessFrame 60 5 0 0 = 1 := by
  have hlen : (regionPixels witnessFrame 60 5 0 0).length = 300 := by decide
  have hskin : skinPixelCount witnessFrame 60 5 0 0 = 220 := by decide
  have hsum : (regionPixels witnessFrame 60 5 0 0).foldl
      (fun acc p => acc + (p.r + p.g + p.b)) 0 = 72620 := by decide
  have hr : skinRatioOf witnessFrame 60 5 0 0 = 11/15 := by
    unfold skinRatioOf
    rw [hskin, hlen]
    norm_num
  have hb : avgBrightnessOf witnessFrame 60 5 0 0 = 3631/45 := by
    unfold avgBrightnessOf
    rw [brightness_sum_cast, hsum, hlen]
    norm_num
  have hcond : ((skinRatioOf witnessFrame 60 5 0 0 > 1/5 ∧
      skinRatioOf witnessFrame 60 5 0 0 < 4/5) ∧
     (avgBrightnessOf witnessFrame 60 5 0 0 > 60 ∧
      avgBrightnessOf witnessFrame 60 5 0 0 < 200) ∧
     skinPixelCount witnessFrame 60 5 0 0 > 200) := by
    refine ⟨⟨?_, ?_⟩, ⟨?_, ?_⟩, ?_⟩
    · rw [hr]; norm_num
    · rw [hr]; norm_num
    · rw [hb]; norm_num
    · rw [hb]; norm_num
    · rw [hskin]; norm_num
  exact ⟨hcond, (faceScore_extremes witnessFrame 60 5 0 0).1 hcond⟩

/-! ## Claim C10 -/

/-- C10: the class's `mobileDetectionEnabled` and `talkingDetectionEnabled`
flags are never consulted on the detection/warning path — the per-cycle
warnings are unchanged under any values of the two flags (both detectors
always run: `detectBehaviors` takes no class record at all), and every
emitted behavior that carries a matched `studentId` yields a
BehaviorWarning against the current class. -/
theorem detection_flags_not_consulted (c : ClassRec) (m t : Option Bool)
    (cid : String) (cache : List CachedFace)
    (mobileCands talkingCands : List (ℚ × ℚ × ℚ)) :
    cycleWarnings { c with mobileDetectionEnabled := m,
                           talkingDetectionEnabled := t } cid cache
        mobileCands talkingCands
      = cycleWarnings c cid cache mobileCands talkingCands
    ∧ ∀ b ∈ detectBehaviors cache mobileCands talkingCands, ∀ sid,
        b.studentId = some sid →
        ({ studentId := sid, classId := cid, warningType := b.btype,
           description := b.btype ++ " detected with confidence" }
          : WarningReq)
          ∈ cycleWarnings c cid cache mobileCands talkingCands := by
  constructor
  · rfl
  · intro b hb sid hsid
    show _ ∈ handleBehaviorDetected cid
      (detectBehaviors cache mobileCands talkingCands)
    refine List.mem_filterMap.mpr ⟨b, hb, ?_⟩
    rw [hsid]

/-- C10 witness: a concrete cycle — mobile flag off, talking flag on — in
which a mobile candidate near a cached face still produces a
BehaviorWarning. -/
theorem detection_flags_not_consulted_witness :
    ({ btype := "mobile", confidence := 100, studentId := some "s1",
       studentName := some "Alice" } : BehaviorDet)
      ∈ detectBehaviors
        [{ x := 0, y := 0, studentId := "s1", studentName := "Alice" }]
        [(10, 10, 1)] []
    ∧ ({ studentId := "s1", classId := "c1", warningType := "mobile",
         description := "mobile detected with confidence" } : WarningReq)
        ∈ cycleWarnings activeA "c1"
          [{ x := 0, y := 0, studentId := "s1", studentName := "Alice" }]
          [(10, 10, 1)] [] := by
  have hfind : findNearestDetectedFace
      [{ x := 0, y := 0, studentId := "s1", studentName := "Alice" }] 10 10
      = some { x := 0, y := 0, studentId := "s1", studentName := "Alice" } := by
    norm_num [findNearestDetectedFace, dist2]
  have hb : ({ btype := "mobile", confidence := 100, studentId := some "s1",
               studentName := some "Alice" } : BehaviorDet)
      ∈ detectBehaviors
        [{ x := 0, y := 0, studentId := "s1", studentName := "Alice" }]
        [(10, 10, 1)] [] := by
    simp only [detectBehaviors, detectMobilePhoneL, detectTalkingL,
      List.filterMap, mobileBehaviorAt, talkingBehaviorAt, hfind]
    norm_num
  exact ⟨hb,
    (detection_flags_not_consulted activeA (some false) (some true) "c1"
      [{ x := 0, y := 0, studentId := "s1", studentName := "Alice" }]
      [(10, 10, 1)] []).2
      { btype := "mobile", confidence := 100, studentId := some "s1",
        studentName := some "Alice" } hb "s1" rfl⟩
